import Mathlib

/-!
Verification development for the tool-calling chat bot
(`src/tools.py`, `src/main.py`, `src/config.py`).

The Python source is shallowly embedded: pure functions become Lean
functions, collaborating external services (the OpenAI gateway, the pytz
timezone database, the web-search HTTP endpoint) become explicit function
parameters, and Python exceptions become `Except` values.  Python `float`
values are modelled as exact fractions of integers (`Frac`); every
concrete theorem below is evaluated at inputs where the exact-fraction and
IEEE-double computations give the same rendered output (checked against
CPython by hand-tracing the source).

Recursive scanners and parsers are written with an explicit fuel argument
(always called with fuel at least the size of the input, so the fuel never
runs out on the inputs the theorems mention); this keeps every definition
kernel-computable, so witnesses evaluate by `rfl`/`decide`.
-/

namespace ToolBot

/-! ### Basic character/string utilities (models of Python `str` methods) -/

/-- A word character in the sense of the `re` module's `\w` / `\b`
(ASCII letters, digits and underscore; the source only ever handles
ASCII input). -/
def isWordChar (c : Char) : Bool :=
  c.isAlpha || c.isDigit || c = '_'

/-- Whitespace characters stripped by Python's `str.strip()`
(space, tab, newline, carriage return, vertical tab, form feed). -/
def isPySpace (c : Char) : Bool :=
  c = ' ' || c = '\t' || c = '\n' || c = '\r' ||
  c = Char.ofNat 11 || c = Char.ofNat 12

/-- Python `str.strip()`. -/
def pyStrip (s : String) : String :=
  ⟨((s.data.dropWhile isPySpace).reverse.dropWhile isPySpace).reverse⟩

/-- Python `str.lower()` (ASCII case folding; sufficient for the
timezone names the source compares). -/
def pyLower (s : String) : String :=
  ⟨s.data.map Char.toLower⟩

/-- Python's `needle in haystack` substring test. -/
def strContains (haystack needle : String) : Bool :=
  (List.range (haystack.data.length + 1)).any
    (fun i => needle.data.isPrefixOf (haystack.data.drop i))

/-- The single-quote character (written via its code point to keep
string literals free of bare apostrophes). -/
def sq : String := String.mk [Char.ofNat 39]

/-- Wrap a string in single quotes, as CPython error f-strings do. -/
def quoted (s : String) : String := sq ++ s ++ sq

/-! ### Exact fractions: the model of Python `float` values

Python floats are IEEE doubles; the embedding models float arithmetic
exactly over fractions of unbounded integers.  The fraction is kept
unnormalised (no gcd), with a strictly positive denominator maintained by
the smart constructor, so that all operations kernel-reduce. -/

structure Frac where
  num : Int
  den : Int
deriving DecidableEq, Repr

/-- Build a fraction, normalising the sign into the numerator. -/
def mkFrac (n d : Int) : Frac :=
  if d < 0 then ⟨-n, -d⟩ else ⟨n, d⟩

def Frac.add (a b : Frac) : Frac := ⟨a.num * b.den + b.num * a.den, a.den * b.den⟩
def Frac.sub (a b : Frac) : Frac := ⟨a.num * b.den - b.num * a.den, a.den * b.den⟩
def Frac.mul (a b : Frac) : Frac := ⟨a.num * b.num, a.den * b.den⟩
def Frac.div (a b : Frac) : Frac := mkFrac (a.num * b.den) (a.den * b.num)
def Frac.neg (a : Frac) : Frac := ⟨-a.num, a.den⟩

/-- Value-level `a ≤ b` (denominators are positive). -/
def Frac.le (a b : Frac) : Bool := a.num * b.den ≤ b.num * a.den
/-- Value-level `a < b`. -/
def Frac.lt (a b : Frac) : Bool := a.num * b.den < b.num * a.den
/-- Value-level equality (representation-independent). -/
def Frac.eqv (a b : Frac) : Bool := a.num * b.den = b.num * a.den
/-- Python `float.is_integer()`. -/
def Frac.isInt (a : Frac) : Bool := a.num % a.den = 0
/-- `math.floor` of the value. -/
def Frac.floor (a : Frac) : Int := a.num.fdiv a.den
/-- The value is zero. -/
def Frac.isZero (a : Frac) : Bool := a.num = 0

def ofInt (n : Int) : Frac := ⟨n, 1⟩

/-- `10 ^ i` as a fraction, for an integer (possibly negative) exponent. -/
def powTen (i : Int) : Frac :=
  if i ≥ 0 then ⟨(10 : Int) ^ i.toNat, 1⟩ else ⟨1, (10 : Int) ^ (-i).toNat⟩

/-- `a ^ n` for a natural exponent. -/
def Frac.npow (a : Frac) (n : Nat) : Frac := ⟨a.num ^ n, a.den ^ n⟩

/-! ### The text-substitution step of `calculator_tool` (src/tools.py:28-43)

The source iterates `re.sub(r'\b' + old + r'\b', new, expression)` over
the `replacements` dict in insertion order.  For the alphanumeric keys
this replaces whole-word occurrences.  For the final key `'^'` the caret
is an *unescaped regex anchor*: the pattern `\b^\b` matches the empty
string at position 0 exactly when the first character is a word
character, so the substitution inserts `**` at the front of such
expressions and never touches an actual `^` character.  (Behaviour
confirmed against CPython's `re`.) -/

/-- One pass of `re.sub(r'\b<word>\b', repl, ·)` for a nonempty
alphanumeric word.  `prev` is the character of the *original* string just
before the current position (word boundaries are judged on the original
string; scanning resumes after each match).  Fuel: one unit per consumed
character, so `fuel = cs.length` always suffices. -/
def substWordAux (w repl : List Char) (fuel : Nat) (prev : Option Char) :
    List Char → List Char
  | [] => []
  | c :: cs =>
    match fuel with
    | 0 => c :: cs
    | f + 1 =>
      let boundaryBefore : Bool := match prev with
        | none => true
        | some p => !isWordChar p
      let here := c :: cs
      if boundaryBefore && w.isPrefixOf here &&
          (match here.drop w.length with
           | [] => true
           | d :: _ => !isWordChar d) then
        repl ++ substWordAux w repl f w.getLast? (here.drop w.length)
      else
        c :: substWordAux w repl f (some c) cs

/-- `re.sub(r'\b' + w + r'\b', repl, s)` for a word `w`. -/
def substWord (w repl s : String) : String :=
  ⟨substWordAux w.data repl.data s.data.length none s.data⟩

/-- `re.sub(r'\b^\b', '**', s)`: the unescaped-caret entry of the
replacements dict.  `^` is the start-of-string anchor, so the pattern
matches the empty string at position 0 iff the first character is a word
character; the match is replaced by `**`. -/
def substCaret (s : String) : String :=
  match s.data with
  | [] => s
  | c :: _ => if isWordChar c then "**" ++ s else s

/-- The `replacements` dict of src/tools.py:29-40, in insertion order
(the `'^'` entry is applied last, by `substCaret`). -/
def replacements : List (String × String) :=
  [("sqrt", "math.sqrt"), ("sin", "math.sin"), ("cos", "math.cos"),
   ("tan", "math.tan"), ("log", "math.log"), ("ln", "math.log"),
   ("log10", "math.log10"), ("pi", "math.pi"), ("e", "math.e")]

/-- The whole substitution loop of src/tools.py:42-43. -/
def substAll (s : String) : String :=
  substCaret (replacements.foldl (fun acc p => substWord p.1 p.2 acc) s)

/-! ### Expression AST (the fragment of Python's `ast` that `eval` mode
can produce for arithmetic input)

Nodes such as `Load` contexts and operator objects, which `ast.walk`
yields but which are neither `Call` nor `Name`, are irrelevant to the
source's safety loop and are not separate nodes here. -/

inductive BOp
  | add | sub | mult | div | floordiv | mod | pow | bitxor
deriving DecidableEq, Repr

inductive UOp
  | usub | uadd
deriving DecidableEq, Repr

inductive Ast
  /-- integer `Constant` -/
  | num (n : Int)
  /-- float `Constant` (decimal literal, exact value) -/
  | fnum (q : Frac)
  /-- string `Constant` -/
  | strc (s : String)
  /-- bare identifier (`ast.Name`) -/
  | name (id : String)
  /-- `ast.Attribute` (e.g. `math.sqrt`) -/
  | attr (v : Ast) (field : String)
  /-- `ast.Call`; `ast.walk` yields the callee first, then the arguments -/
  | call (f : Ast) (args : List Ast)
  | binop (op : BOp) (l r : Ast)
  | unop (op : UOp) (e : Ast)

/-! ### Tokenizer

A sound model of CPython's tokenizer on the arithmetic fragment: every
token list it produces is exactly what CPython produces; inputs it
rejects (`none`) are inputs the model deliberately does not cover, such
as comparison operators, keywords, string escapes, underscore-separated
numerals or leading-dot floats.  No theorem below asserts anything about
an input outside the accepted fragment except at inputs whose rejection
by CPython itself was hand-verified. -/

inductive Tok
  | int (n : Int)
  | float (q : Frac)
  | name (s : String)
  | str (s : String)
  | op (s : String)
deriving DecidableEq, Repr

def qChar : Char := Char.ofNat 39
def dqChar : Char := Char.ofNat 34
def bsChar : Char := Char.ofNat 92

/-- Python keywords: an identifier token may not be one of these
(the model rejects inputs containing them; CPython parses some, e.g.
`lambda`, but no theorem quantifies over such inputs). -/
def pyKeywords : List String :=
  ["False", "None", "True", "and", "as", "assert", "async", "await",
   "break", "class", "continue", "def", "del", "elif", "else", "except",
   "finally", "for", "from", "global", "if", "import", "in", "is",
   "lambda", "nonlocal", "not", "or", "pass", "raise", "return", "try",
   "while", "with", "yield"]

def natOfDigits (ds : List Char) : Nat :=
  ds.foldl (fun acc c => acc * 10 + (c.toNat - 48)) 0

/-- Scan a string literal body up to the closing quote `q`; fails on a
backslash (escapes unmodelled) or an unterminated literal. -/
def scanStr (q : Char) : List Char → Option (List Char × List Char)
  | [] => none
  | c :: cs =>
    if c = q then some ([], cs)
    else if c = bsChar then none
    else (scanStr q cs).map (fun p => (c :: p.1, p.2))

/-- Tokenize; fuel ≥ number of characters suffices. -/
def tokAux (fuel : Nat) (cs : List Char) : Option (List Tok) :=
  match fuel with
  | 0 => none
  | f + 1 =>
    match cs with
    | [] => some []
    | c :: rest =>
      if isPySpace c then tokAux f rest
      else if c.isDigit then
        let ds := (c :: rest).takeWhile Char.isDigit
        let r1 := (c :: rest).dropWhile Char.isDigit
        match r1 with
        | '.' :: r2 =>
          -- float literal `digits '.' digits*` (leading zeros allowed)
          let fs := r2.takeWhile Char.isDigit
          let r3 := r2.dropWhile Char.isDigit
          let q : Frac := ⟨(natOfDigits ds : Int) * (10 : Int) ^ fs.length
                             + (natOfDigits fs : Int), (10 : Int) ^ fs.length⟩
          (tokAux f r3).map (Tok.float q :: ·)
        | _ =>
          -- integer literal: CPython rejects leading zeros (except all-zero)
          if ds.length > 1 && ds.headD '0' = '0' && ds.any (· ≠ '0') then none
          else (tokAux f r1).map (Tok.int (natOfDigits ds) :: ·)
      else if isWordChar c then
        let nm : String := ⟨(c :: rest).takeWhile isWordChar⟩
        if pyKeywords.contains nm then none
        else (tokAux f ((c :: rest).dropWhile isWordChar)).map (Tok.name nm :: ·)
      else if c = qChar || c = dqChar then
        match scanStr c rest with
        | some (body, r2) => (tokAux f r2).map (Tok.str ⟨body⟩ :: ·)
        | none => none
      else
        match c, rest with
        | '*', '*' :: r2 => (tokAux f r2).map (Tok.op "**" :: ·)
        | '/', '/' :: r2 => (tokAux f r2).map (Tok.op "//" :: ·)
        | '*', _ => (tokAux f rest).map (Tok.op "*" :: ·)
        | '/', _ => (tokAux f rest).map (Tok.op "/" :: ·)
        | '+', _ => (tokAux f rest).map (Tok.op "+" :: ·)
        | '-', _ => (tokAux f rest).map (Tok.op "-" :: ·)
        | '%', _ => (tokAux f rest).map (Tok.op "%" :: ·)
        | '^', _ => (tokAux f rest).map (Tok.op "^" :: ·)
        | '(', _ => (tokAux f rest).map (Tok.op "(" :: ·)
        | ')', _ => (tokAux f rest).map (Tok.op ")" :: ·)
        | ',', _ => (tokAux f rest).map (Tok.op "," :: ·)
        | '.', _ => (tokAux f rest).map (Tok.op "." :: ·)
        | _, _ => none

/-! ### Parser

Recursive descent with Python's precedence on the supported operators:
`^` (BitXor) below `+ -`, below `* / // %`, below unary `+ -`, below
right-associative `**` (whose base excludes a leading unary minus, and
whose right operand admits one, exactly as in Python).  To keep the
definition kernel-computable it is a single function recursing on fuel,
with a numeric `mode` selecting the grammar production:

  0 xor-level    1 xor-rest     2 add-level   3 add-rest
  4 mul-level    5 mul-rest     6 unary       7 power
  8 primary      9 trailers     10 arguments

Modes 1/3/5/9 carry the left operand on `stack` (a one-element stack);
mode 10 accumulates the argument list (reversed) on `stack`.  The result
is `.inl ast` except for mode 10, which yields `.inr args`. -/

def pRun (fuel : Nat) (mode : Nat) (stack : List Ast) (ts : List Tok) :
    Option ((Ast ⊕ List Ast) × List Tok) :=
  match fuel with
  | 0 => none
  | f + 1 =>
    if mode = 0 then
      match pRun f 2 [] ts with
      | some (.inl a, r) => pRun f 1 [a] r
      | _ => none
    else if mode = 1 then
      match stack, ts with
      | [a], .op "^" :: r =>
        match pRun f 2 [] r with
        | some (.inl b, r2) => pRun f 1 [.binop .bitxor a b] r2
        | _ => none
      | [a], _ => some (.inl a, ts)
      | _, _ => none
    else if mode = 2 then
      match pRun f 4 [] ts with
      | some (.inl a, r) => pRun f 3 [a] r
      | _ => none
    else if mode = 3 then
      match stack, ts with
      | [a], .op "+" :: r =>
        match pRun f 4 [] r with
        | some (.inl b, r2) => pRun f 3 [.binop .add a b] r2
        | _ => none
      | [a], .op "-" :: r =>
        match pRun f 4 [] r with
        | some (.inl b, r2) => pRun f 3 [.binop .sub a b] r2
        | _ => none
      | [a], _ => some (.inl a, ts)
      | _, _ => none
    else if mode = 4 then
      match pRun f 6 [] ts with
      | some (.inl a, r) => pRun f 5 [a] r
      | _ => none
    else if mode = 5 then
      match stack, ts with
      | [a], .op "*" :: r =>
        match pRun f 6 [] r with
        | some (.inl b, r2) => pRun f 5 [.binop .mult a b] r2
        | _ => none
      | [a], .op "/" :: r =>
        match pRun f 6 [] r with
        | some (.inl b, r2) => pRun f 5 [.binop .div a b] r2
        | _ => none
      | [a], .op "//" :: r =>
        match pRun f 6 [] r with
        | some (.inl b, r2) => pRun f 5 [.binop .floordiv a b] r2
        | _ => none
      | [a], .op "%" :: r =>
        match pRun f 6 [] r with
        | some (.inl b, r2) => pRun f 5 [.binop .mod a b] r2
        | _ => none
      | [a], _ => some (.inl a, ts)
      | _, _ => none
    else if mode = 6 then
      match ts with
      | .op "-" :: r =>
        match pRun f 6 [] r with
        | some (.inl b, r2) => some (.inl (.unop .usub b), r2)
        | _ => none
      | .op "+" :: r =>
        match pRun f 6 [] r with
        | some (.inl b, r2) => some (.inl (.unop .uadd b), r2)
        | _ => none
      | _ => pRun f 7 [] ts
    else if mode = 7 then
      match pRun f 8 [] ts with
      | some (.inl a, .op "**" :: r) =>
        match pRun f 6 [] r with
        | some (.inl b, r2) => some (.inl (.binop .pow a b), r2)
        | _ => none
      | some (.inl a, r) => some (.inl a, r)
      | _ => none
    else if mode = 8 then
      match ts with
      | .int n :: r => pRun f 9 [.num n] r
      | .float q :: r => pRun f 9 [.fnum q] r
      | .str s :: r => pRun f 9 [.strc s] r
      | .name s :: r => pRun f 9 [.name s] r
      | .op "(" :: r =>
        match pRun f 0 [] r with
        | some (.inl a, .op ")" :: r2) => pRun f 9 [a] r2
        | _ => none
      | _ => none
    else if mode = 9 then
      match stack, ts with
      | [a], .op "." :: .name s :: r => pRun f 9 [.attr a s] r
      | [a], .op "(" :: .op ")" :: r => pRun f 9 [.call a []] r
      | [a], .op "(" :: r =>
        match pRun f 10 [] r with
        | some (.inr args, .op ")" :: r2) => pRun f 9 [.call a args] r2
        | _ => none
      | [a], _ => some (.inl a, ts)
      | _, _ => none
    else if mode = 10 then
      match pRun f 0 [] ts with
      | some (.inl a, .op "," :: r) => pRun f 10 (a :: stack) r
      | some (.inl a, r) => some (.inr (a :: stack).reverse, r)
      | _ => none
    else none

/-- `ast.parse(s, mode='eval')` on the supported fragment: tokenize,
parse a full expression, require all tokens consumed.  `none` models a
`SyntaxError` (sound on the fragment; see the tokenizer note). -/
def parseExpr (s : String) : Option Ast :=
  match tokAux (s.data.length + 1) s.data with
  | none => none
  | some ts =>
    match pRun (20 * (ts.length + 1)) 0 [] ts with
    | some (.inl a, []) => some a
    | _ => none

/-! ### The safety loop of `calculator_tool` (src/tools.py:59-67)

The source iterates `ast.walk(node)` — a breadth-first traversal — and
raises `ValueError(f"Unsafe operation: {id}")` at the first `ast.Name`
whose identifier is neither a key of `safe_dict` nor prefixed `math.`
(the latter can never hold for a parsed `Name`, since attribute access
is an `Attribute` node).  The `ast.Call` branch of the loop only ever
executes `continue`: it rejects nothing. -/

/-- The children of a node in `ast.walk` order. -/
def children : Ast → List Ast
  | .num _ | .fnum _ | .strc _ | .name _ => []
  | .attr v _ => [v]
  | .call f args => f :: args
  | .binop _ l r => [l, r]
  | .unop _ e => [e]

/-- Breadth-first traversal (`ast.walk`).  Each step pops one node, so
fuel equal to the total node count makes the traversal complete; callers
pass a fuel that dominates the node count (a parsed AST has at most one
node per input character). -/
def walkBFS (fuel : Nat) (q : List Ast) : List Ast :=
  match fuel with
  | 0 => []
  | f + 1 =>
    match q with
    | [] => []
    | a :: rest => a :: walkBFS f (rest ++ children a)

/-- The keys of `safe_dict` (src/tools.py:46-54). -/
def safeKeys : List String :=
  ["__builtins__", "math", "abs", "round", "min", "max", "sum"]

/-- What the loop body of src/tools.py:60-67 does at one node: `Call`
nodes are skipped (the branch only `continue`s), a `Name` outside
`safe_dict` whose id does not start with `math.` is the raised unsafe
identifier, every other node is skipped. -/
def nodeObjection : Ast → Option String
  | .call _ _ => none
  | .name id =>
    if safeKeys.contains id || "math.".data.isPrefixOf id.data then none
    else some id
  | _ => none

/-- The id of a `Name` node, if any (used to state which bare
identifiers an expression contains). -/
def astNameId : Ast → Option String
  | .name id => some id
  | _ => none

/-- The first unsafe identifier the source's loop would raise on, walking
breadth-first with the given fuel. -/
def findUnsafe (fuel : Nat) (a : Ast) : Option String :=
  (walkBFS fuel [a]).findSome? nodeObjection

/-- All bare identifiers of the walked tree, in walk order. -/
def bareNames (fuel : Nat) (a : Ast) : List String :=
  (walkBFS fuel [a]).filterMap astNameId

/-! ### Evaluation (the `eval(compile(node, ...), safe_dict)` step)

Python runtime values are modelled by `PyVal`; raised exceptions by
`PyErr`, matching the except-clauses of src/tools.py:80-87.  Arithmetic
on floats is exact fractions (see the file comment); transcendental math
functions, which no theorem evaluates, raise a model-gap `other` error
rather than being approximated. -/

inductive PyVal
  | vint (n : Int)
  | vfloat (q : Frac)
  | vstr (s : String)
  /-- the empty dict bound to the key `__builtins__` in `safe_dict` -/
  | vdict
  /-- the `math` module object -/
  | vmod
  /-- a builtin or math-module function, identified by name -/
  | vbfun (nm : String)
deriving DecidableEq, Repr

inductive PyErr
  /-- `ZeroDivisionError` (any message; the handler ignores it) -/
  | zeroDiv
  /-- `ValueError(msg)` — rendered as `Error: {msg}` -/
  | valueError (msg : String)
  /-- any other exception — rendered by the catch-all handler -/
  | other (msg : String)
deriving DecidableEq, Repr

/-- Name lookup in `safe_dict` (src/tools.py:46-54). -/
def lookupSafe : String → Option PyVal
  | "__builtins__" => some .vdict
  | "math" => some .vmod
  | "abs" => some (.vbfun "abs")
  | "round" => some (.vbfun "round")
  | "min" => some (.vbfun "min")
  | "max" => some (.vbfun "max")
  | "sum" => some (.vbfun "sum")
  | _ => none

/-- The double closest to π, as an exact fraction (the value of
`math.pi`). -/
def piFloat : Frac := ⟨884279719003555, 281474976710656⟩

/-- The double closest to e (the value of `math.e`). -/
def eFloat : Frac := ⟨6121026514868073, 2251799813685248⟩

/-- Attribute access on the `math` module.  Attributes no theorem
touches are still present as functions (`vbfun`); applying one that the
exact-fraction model cannot represent raises a model-gap error. -/
def mathAttr (a : String) : Except PyErr PyVal :=
  if a = "pi" then .ok (.vfloat piFloat)
  else if a = "e" then .ok (.vfloat eFloat)
  else if ["sqrt", "sin", "cos", "tan", "log", "log10", "factorial",
           "gamma"].contains a then .ok (.vbfun ("math." ++ a))
  else .error (.other ("module " ++ quoted "math" ++ " has no attribute "
    ++ quoted a ++ " (unmodelled)"))

/-- Numeric view of a value. -/
def toFrac : PyVal → Option Frac
  | .vint n => some (ofInt n)
  | .vfloat q => some q
  | _ => none

/-- Whether the value is a Python `float`. -/
def isFloatV : PyVal → Bool
  | .vfloat _ => true
  | _ => false

/-- Python's `int.__xor__` (two's-complement xor of unbounded ints). -/
def intXor (a b : Int) : Int :=
  if a ≥ 0 then
    if b ≥ 0 then (Nat.xor a.toNat b.toNat : Int)
    else -1 - (Nat.xor a.toNat (-1 - b).toNat : Int)
  else
    if b ≥ 0 then -1 - (Nat.xor (-1 - a).toNat b.toNat : Int)
    else (Nat.xor (-1 - a).toNat (-1 - b).toNat : Int)

/-- A `TypeError` for a binary operator applied to non-numbers. -/
def binTypeErr (opName : String) : PyErr :=
  .other ("unsupported operand type(s) for " ++ opName)

/-- Binary operators with Python's int/float promotion.  `/` always
yields a float; `//` and `%` use floor semantics; `**` of ints with a
negative exponent yields a float. -/
def applyB (op : BOp) (a b : PyVal) : Except PyErr PyVal :=
  match op with
  | .bitxor =>
    match a, b with
    | .vint x, .vint y => .ok (.vint (intXor x y))
    | _, _ => .error (binTypeErr "^")
  | .add =>
    match a, b with
    | .vint x, .vint y => .ok (.vint (x + y))
    | _, _ =>
      match toFrac a, toFrac b with
      | some x, some y => .ok (.vfloat (x.add y))
      | _, _ => .error (binTypeErr "+")
  | .sub =>
    match a, b with
    | .vint x, .vint y => .ok (.vint (x - y))
    | _, _ =>
      match toFrac a, toFrac b with
      | some x, some y => .ok (.vfloat (x.sub y))
      | _, _ => .error (binTypeErr "-")
  | .mult =>
    match a, b with
    | .vint x, .vint y => .ok (.vint (x * y))
    | _, _ =>
      match toFrac a, toFrac b with
      | some x, some y => .ok (.vfloat (x.mul y))
      | _, _ => .error (binTypeErr "*")
  | .div =>
    match toFrac a, toFrac b with
    | some x, some y =>
      if y.isZero then .error .zeroDiv else .ok (.vfloat (x.div y))
    | _, _ => .error (binTypeErr "/")
  | .floordiv =>
    match a, b with
    | .vint x, .vint y =>
      if y = 0 then .error .zeroDiv else .ok (.vint (x.fdiv y))
    | _, _ =>
      match toFrac a, toFrac b with
      | some x, some y =>
        if y.isZero then .error .zeroDiv
        else .ok (.vfloat (ofInt ((x.div y).floor)))
      | _, _ => .error (binTypeErr "//")
  | .mod =>
    match a, b with
    | .vint x, .vint y =>
      if y = 0 then .error .zeroDiv else .ok (.vint (x.fmod y))
    | _, _ =>
      match toFrac a, toFrac b with
      | some x, some y =>
        if y.isZero then .error .zeroDiv
        else .ok (.vfloat (x.sub (y.mul (ofInt ((x.div y).floor)))))
      | _, _ => .error (binTypeErr "%")
  | .pow =>
    match a, b with
    | .vint x, .vint y =>
      if y ≥ 0 then .ok (.vint (x ^ y.toNat))
      else if x = 0 then .error .zeroDiv
      else .ok (.vfloat ((ofInt 1).div ((ofInt x).npow (-y).toNat)))
    | _, _ =>
      match toFrac a, toFrac b with
      | some x, some y =>
        if y.isInt then
          let n := y.floor
          if n ≥ 0 then .ok (.vfloat (x.npow n.toNat))
          else if x.isZero then .error .zeroDiv
          else .ok (.vfloat ((ofInt 1).div (x.npow (-n).toNat)))
        else .error (.other "non-integral float exponent (unmodelled)")
      | _, _ => .error (binTypeErr "** or pow()")

/-- Unary operators. -/
def applyU (op : UOp) (a : PyVal) : Except PyErr PyVal :=
  match op, a with
  | .usub, .vint n => .ok (.vint (-n))
  | .usub, .vfloat q => .ok (.vfloat q.neg)
  | .uadd, .vint n => .ok (.vint n)
  | .uadd, .vfloat q => .ok (.vfloat q)
  | _, _ => .error (.other "bad operand type for unary operator")

/-- Exact square root of a fraction, when it exists. -/
def fracSqrt (q : Frac) : Option Frac :=
  let n := q.num.toNat
  let d := q.den.toNat
  let sn := Nat.sqrt n
  let sd := Nat.sqrt d
  if sn * sn = n && sd * sd = d then some ⟨(sn : Int), (sd : Int)⟩ else none

/-- Apply a callable value to evaluated arguments.  Implemented exactly
for the calls the theorems evaluate (`math.factorial`, exact
`math.sqrt`, `abs`, `round`) and in type/arity shape for the rest;
anything the exact-fraction model cannot represent raises a model-gap
`other` error (no theorem reaches those branches). -/
def applyCall (g : PyVal) (xs : List PyVal) : Except PyErr PyVal :=
  match g with
  | .vbfun "abs" =>
    match xs with
    | [.vint n] => .ok (.vint n.natAbs)
    | [.vfloat q] => .ok (.vfloat ⟨q.num.natAbs, q.den⟩)
    | _ => .error (.other "abs() takes exactly one numeric argument")
  | .vbfun "round" =>
    match xs with
    | [.vint n] => .ok (.vint n)
    | [.vfloat q] =>
      -- Python banker's rounding (round-half-even) to an int
      let fl := q.floor
      let t := q.num - fl * q.den
      .ok (.vint (if 2 * t < q.den then fl
        else if 2 * t > q.den then fl + 1
        else if fl % 2 = 0 then fl else fl + 1))
    | _ => .error (.other "round(): unmodelled argument shape")
  | .vbfun "math.factorial" =>
    match xs with
    | [.vint n] =>
      if n ≥ 0 then .ok (.vint (Nat.factorial n.toNat))
      else .error (.valueError "factorial() not defined for negative values")
    | _ => .error (.other "factorial(): unmodelled argument shape")
  | .vbfun "math.sqrt" =>
    match xs with
    | [v] =>
      match toFrac v with
      | some q =>
        if q.lt (ofInt 0) then .error (.valueError "math domain error")
        else
          match fracSqrt q with
          | some r => .ok (.vfloat r)
          | none => .error (.other "irrational square root (unmodelled)")
      | none => .error (.other "must be real number")
    | _ => .error (.other "sqrt(): unmodelled argument shape")
  | .vbfun "min" | .vbfun "max" | .vbfun "sum" =>
    .error (.other "min/max/sum: unmodelled argument shape")
  | .vbfun _ => .error (.other "transcendental function (unmodelled)")
  | .vint _ | .vfloat _ =>
    .error (.other "object is not callable")
  | _ => .error (.other "object is not callable")

/-- Evaluate an AST under `safe_dict`.  Fuel dominates the tree depth
(callers pass a fuel that dominates node count). -/
def evalAst (fuel : Nat) (a : Ast) : Except PyErr PyVal :=
  match fuel with
  | 0 => .error (.other "model: fuel exhausted")
  | f + 1 =>
    match a with
    | .num n => .ok (.vint n)
    | .fnum q => .ok (.vfloat q)
    | .strc s => .ok (.vstr s)
    | .name id =>
      match lookupSafe id with
      | some v => .ok v
      | none => .error (.other ("name " ++ quoted id ++ " is not defined"))
    | .attr v fld => do
      let x ← evalAst f v
      match x with
      | .vmod => mathAttr fld
      | _ => .error (.other ("object has no attribute " ++ quoted fld))
    | .unop op e => do applyU op (← evalAst f e)
    | .binop op l r => do applyB op (← evalAst f l) (← evalAst f r)
    | .call g args => do
      let gv ← evalAst f g
      let xs ← args.mapM (evalAst f)
      applyCall gv xs

/-! ### Result formatting (src/tools.py:71-78) -/

/-- Number of decimal digits of a natural number. -/
def numDigits (n : Nat) : Nat := (Nat.toDigits 10 n).length

/-- `⌊log10 q⌋` for a positive fraction: the `e` with
`10^e ≤ q < 10^(e+1)`.  For `q < 1` the exponent is found by bounded
search (the bound `numDigits den + 2` always suffices since
`q ≥ 1/den`). -/
def floorLog10 (q : Frac) : Int :=
  if (ofInt 1).le q then ((numDigits q.floor.toNat : Int) - 1)
  else
    match (List.range (numDigits q.den.toNat + 2)).find?
        (fun k => (ofInt 1).le (q.mul (powTen (k + 1)))) with
    | some k => -((k : Int) + 1)
    | none => 0

/-- Round a nonnegative fraction to the nearest integer, ties to even
(the rounding CPython's float-to-decimal conversion applies). -/
def roundHalfEven (q : Frac) : Int :=
  let fl := q.floor
  let t := q.num - fl * q.den
  if 2 * t < q.den then fl
  else if 2 * t > q.den then fl + 1
  else if fl % 2 = 0 then fl else fl + 1

/-- Mantissa (10 decimal digits) and decimal exponent of a positive
fraction, rounded half-even — the data `%.10g` formats. -/
def sig10 (q : Frac) : Int × Nat :=
  let e := floorLog10 q
  let scaled := q.mul (powTen (9 - e))
  let n := (roundHalfEven scaled).toNat
  if n ≥ 10 ^ 10 then (e + 1, n / 10) else (e, n)

/-- Drop trailing zero digits. -/
def stripZeros (ds : List Char) : List Char :=
  (ds.reverse.dropWhile (· = '0')).reverse

/-- CPython `'{:.10g}'.format` of a positive fraction: scientific
notation (exponent sign always printed, padded to two digits) when the
decimal exponent is below -4 or at least 10, positional notation with
trailing zeros stripped otherwise. -/
def format10gPos (q : Frac) : String :=
  let p := sig10 q
  let e := p.1
  let ds := stripZeros (Nat.toDigits 10 p.2)
  match ds with
  | [] => "0"
  | d :: restD =>
    if e < -4 || e ≥ 10 then
      let mant := if restD = [] then String.mk [d]
        else String.mk [d] ++ "." ++ String.mk restD
      let ea := if e < 0 then (-e).toNat else e.toNat
      let es := if ea < 10 then "0" ++ toString ea else toString ea
      mant ++ "e" ++ (if e < 0 then "-" else "+") ++ es
    else if e ≥ 0 then
      let k := e.toNat + 1
      if ds.length ≤ k then String.mk (ds ++ List.replicate (k - ds.length) '0')
      else String.mk (ds.take k) ++ "." ++ String.mk (ds.drop k)
    else
      "0." ++ String.mk (List.replicate ((-e).toNat - 1) '0' ++ ds)

/-- `'{:.10g}'.format(q)` including the sign. -/
def format10g (q : Frac) : String :=
  if q.lt (ofInt 0) then "-" ++ format10gPos q.neg else format10gPos q

/-- Python `str()` of the non-float values that can reach the final
else-branch of the formatter.  (`repr` of the module object embeds a
file path and is abridged; no theorem renders it.) -/
def renderVal : PyVal → String
  | .vint n => toString n
  | .vstr s => s
  | .vdict => "\x7b\x7d"
  | .vmod => "<module " ++ quoted "math" ++ ">"
  | .vbfun nm => "<built-in function " ++ nm ++ ">"
  | .vfloat _ => ""

/-- The result formatting of src/tools.py:71-78: a float that
`is_integer()` renders via `int(result)`; any other float renders via
`{result:.10g}`; non-floats render via `str`.  No branch special-cases
small magnitudes. -/
def formatResult (expression : String) (v : PyVal) : String :=
  match v with
  | .vfloat q =>
    if q.isInt then expression ++ " = " ++ toString (q.floor)
    else expression ++ " = " ++ format10g q
  | v => expression ++ " = " ++ renderVal v

/-! ### `calculator_tool` (src/tools.py:11-87) -/

/-- The full calculator: empty check, strip, substitution, parse
(`SyntaxError` branch), breadth-first safety check (`ValueError`
branch), evaluation, formatting.  The walk/eval fuel
`expression.length + 1` dominates the node count of any parsed AST
(each node consumes at least one input character). -/
def calculator_tool (expression : String) : String :=
  if expression = "" || pyStrip expression = "" then
    "Error: Empty expression provided"
  else
    let expression := pyStrip expression
    let expression := substAll expression
    match parseExpr expression with
    | none => "Error: Invalid mathematical expression " ++ quoted expression
    | some a =>
      let fuel := expression.data.length + 1
      match findUnsafe fuel a with
      | some i => "Error: Unsafe operation: " ++ i
      | none =>
        match evalAst fuel a with
        | .error .zeroDiv => "Error: Division by zero"
        | .error (.valueError m) => "Error: " ++ m
        | .error (.other m) =>
          "Error calculating " ++ quoted expression ++ ": " ++ m
        | .ok v => formatResult expression v

/-! ### `get_current_time` (src/tools.py:89-137)

The pytz timezone database and the datetime rendering are external
collaborators (spec §1 scopes timezone-name-database resolution as
opaque).  The collaborator is a function from the resolved zone name to
the two strings the source interpolates: `local_time.strftime("%Y-%m-%d
%H:%M:%S %Z")` and `local_time.strftime("%A")`; `none` models
`pytz.exceptions.UnknownTimeZoneError`. -/

structure TzView where
  formatted : String
  dayName : String
deriving DecidableEq, Repr

/-- The collaborator environment for the tools: the timezone database +
clock rendering, the `pytz.all_timezones` list consulted for
suggestions, and the web-search network call with its response
formatting (src/tools.py:157-222; treated as an opaque collaborator per
spec §1 — no claim concerns its internals). -/
structure Env where
  tzView : String → Option TzView
  allTimezones : List String
  searchNet : String → Int → String

/-- The `timezone_aliases` dict of src/tools.py:104-113, in insertion
order.  Exactly these eight entries; lookup is a plain (case-sensitive)
dict `get`. -/
def timezone_aliases : List (String × String) :=
  [("EST", "US/Eastern"), ("PST", "US/Pacific"), ("CST", "US/Central"),
   ("MST", "US/Mountain"), ("JST", "Asia/Tokyo"), ("GMT", "GMT"),
   ("CET", "Europe/Paris"), ("IST", "Asia/Kolkata")]

/-- `timezone_aliases.get(timezone, timezone)` after the empty-input
default: the zone name the source hands to `pytz.timezone`. -/
def consultedZone (timezone : String) : String :=
  let tz := if timezone = "" then "UTC" else timezone
  match timezone_aliases.find? (fun p => p.1 = tz) with
  | some p => p.2
  | none => tz

/-- src/tools.py:89-137: default empty input to UTC, apply the alias
dict, consult the timezone database; on `UnknownTimeZoneError` build up
to three substring-match suggestions; otherwise render the current time.
The outer `except Exception` handler is dead in the model (no modelled
step raises past the inner handler). -/
def get_current_time (env : Env) (timezone : String) : String :=
  let tz := consultedZone timezone
  match env.tzView tz with
  | none =>
    let suggestions :=
      (env.allTimezones.filter (fun z => strContains (pyLower z) (pyLower tz))).take 3
    let suggestionText :=
      if suggestions.isEmpty then ""
      else " Did you mean: " ++ String.intercalate ", " suggestions ++ "?"
    "Error: Unknown timezone " ++ quoted tz ++ "." ++ suggestionText
  | some v =>
    "Current time in " ++ tz ++ ": " ++ v.formatted ++ " (" ++ v.dayName ++ ")"

/-- `web_search` (src/tools.py:139-222): the local pre-checks — empty
query rejection and clamping of `num_results` to `[1,5]` with default 3
(also when the JSON value was not an int, `numIsInt = false`) — followed
by the opaque network/formatting collaborator. -/
def web_search (env : Env) (query : String) (num_results : Int)
    (numIsInt : Bool) : String :=
  if query = "" || pyStrip query = "" then "Error: Empty search query provided"
  else
    let n := if !numIsInt || num_results < 1 || num_results > 5 then 3
      else num_results
    env.searchNet query n

/-! ### `json.loads` (the argument decoding of src/main.py:224,270)

A model of CPython's JSON decoder on arguments a model can emit:
objects, arrays, strings (with the standard escapes except `\uXXXX`,
which no theorem needs), numbers, literals.  Error strings reproduce
`str(JSONDecodeError)` — message, line, column, char offset — which is
what the round-boundary handler interpolates. -/

inductive JVal
  | jnull
  | jbool (b : Bool)
  | jint (n : Int)
  | jfloat (q : Frac)
  | jstr (s : String)
  | jarr (xs : List JVal)
  | jobj (kvs : List (String × JVal))

/-- Render a decode failure the way `str(json.JSONDecodeError)` does. -/
def jErrMsg (s : String) (m : String) (pos : Nat) : String :=
  let pre := s.data.take pos
  let line := 1 + pre.count '\n'
  let col := (pre.reverse.takeWhile (· ≠ '\n')).length + 1
  m ++ ": line " ++ toString line ++ " column " ++ toString col ++
    " (char " ++ toString pos ++ ")"

/-- Skip JSON whitespace, tracking the absolute position. -/
def jSkipWs : List Char → Nat → List Char × Nat
  | [], p => ([], p)
  | c :: cs, p =>
    if c = ' ' || c = '\t' || c = '\n' || c = '\r' then jSkipWs cs (p + 1)
    else (c :: cs, p)

/-- Scan a JSON string body (after the opening quote at `startPos`). -/
def jStr (startPos : Nat) : List Char → Nat →
    Except (String × Nat) (List Char × List Char × Nat)
  | [], _ => .error ("Unterminated string starting at", startPos)
  | c :: cs, p =>
    if c = dqChar then .ok ([], cs, p + 1)
    else if c = bsChar then
      match cs with
      | [] => .error ("Unterminated string starting at", startPos)
      | e :: cs2 =>
        let dec : Option Char :=
          if e = dqChar then some dqChar
          else if e = bsChar then some bsChar
          else if e = '/' then some '/'
          else if e = 'b' then some (Char.ofNat 8)
          else if e = 'f' then some (Char.ofNat 12)
          else if e = 'n' then some '\n'
          else if e = 'r' then some '\r'
          else if e = 't' then some '\t'
          else none
        match dec with
        | some d => (jStr startPos cs2 (p + 2)).map (fun r => (d :: r.1, r.2.1, r.2.2))
        | none => .error ("Invalid \x5cescape", p)
    else if c.toNat < 32 then .error ("Invalid control character at", p)
    else (jStr startPos cs p.succ).map (fun r => (c :: r.1, r.2.1, r.2.2))

/-- Scan a JSON number (first char is `-` or a digit). -/
def jNum (cs : List Char) (pos : Nat) :
    Except (String × Nat) (JVal × List Char × Nat) :=
  let (neg, cs1, p1) := match cs with
    | '-' :: r => (true, r, pos + 1)
    | _ => (false, cs, pos)
  match cs1 with
  | c :: _ =>
    if c.isDigit then
      let (ipart, cs2, p2) :=
        if c = '0' then (['0'], cs1.drop 1, p1 + 1)
        else (cs1.takeWhile Char.isDigit, cs1.dropWhile Char.isDigit,
          p1 + (cs1.takeWhile Char.isDigit).length)
      let (fpart, cs3, p3) := match cs2 with
        | '.' :: r2 =>
          let fs := r2.takeWhile Char.isDigit
          if fs.isEmpty then (([] : List Char), cs2, p2)
          else (fs, r2.dropWhile Char.isDigit, p2 + 1 + fs.length)
        | _ => ([], cs2, p2)
      let (epart, cs4, p4) := match cs3 with
        | 'e' :: r3 | 'E' :: r3 =>
          let (esign, r4, d) := match r3 with
            | '-' :: r5 => ((-1 : Int), r5, 2)
            | '+' :: r5 => ((1 : Int), r5, 2)
            | _ => ((1 : Int), r3, 1)
          let es := r4.takeWhile Char.isDigit
          if es.isEmpty then (none, cs3, p3)
          else (some (esign * (natOfDigits es : Int)),
            r4.dropWhile Char.isDigit, p3 + d + es.length)
        | _ => (none, cs3, p3)
      let sgn : Int := if neg then -1 else 1
      if fpart.isEmpty && epart.isNone then
        .ok (.jint (sgn * (natOfDigits ipart : Int)), cs4, p4)
      else
        let mant : Int := sgn * ((natOfDigits ipart : Int) *
          (10 : Int) ^ fpart.length + (natOfDigits fpart : Int))
        let ex : Int := (epart.getD 0) - (fpart.length : Int)
        .ok (.jfloat ((ofInt mant).mul (powTen ex)), cs4, p4)
    else .error ("Expecting value", pos)
  | [] => .error ("Expecting value", pos)

/-- One JSON value / container body, fuel-indexed (fuel ≥ input length
suffices; each nesting level consumes at least one character).  `mode`:
0 = value, 1 = object members after the first key is known to start
here, 2 = array elements.  `kacc`/`vacc` accumulate members (reversed). -/
def jRun (fuel : Nat) (mode : Nat) (kacc : List (String × JVal))
    (vacc : List JVal) (cs : List Char) (pos : Nat) :
    Except (String × Nat) (JVal × List Char × Nat) :=
  match fuel with
  | 0 => .error ("model: fuel exhausted", pos)
  | f + 1 =>
    if mode = 0 then
      match cs with
      | [] => .error ("Expecting value", pos)
      | c :: rest =>
        if c = dqChar then
          (jStr pos rest (pos + 1)).map (fun r => (.jstr ⟨r.1⟩, r.2.1, r.2.2))
        else if c = '\x7b' then
          let (cs1, p1) := jSkipWs rest (pos + 1)
          match cs1 with
          | '\x7d' :: r2 => .ok (.jobj [], r2, p1 + 1)
          | c2 :: _ =>
            if c2 = dqChar then jRun f 1 [] [] cs1 p1
            else .error ("Expecting property name enclosed in double quotes", p1)
          | [] => .error ("Expecting property name enclosed in double quotes", p1)
        else if c = '[' then
          let (cs1, p1) := jSkipWs rest (pos + 1)
          match cs1 with
          | ']' :: r2 => .ok (.jarr [], r2, p1 + 1)
          | _ => jRun f 2 [] [] cs1 p1
        else if c = 't' then
          if ['r', 'u', 'e'].isPrefixOf rest then
            .ok (.jbool true, rest.drop 3, pos + 4)
          else .error ("Expecting value", pos)
        else if c = 'f' then
          if ['a', 'l', 's', 'e'].isPrefixOf rest then
            .ok (.jbool false, rest.drop 4, pos + 5)
          else .error ("Expecting value", pos)
        else if c = 'n' then
          if ['u', 'l', 'l'].isPrefixOf rest then
            .ok (.jnull, rest.drop 3, pos + 4)
          else .error ("Expecting value", pos)
        else if c = '-' || c.isDigit then jNum cs pos
        else .error ("Expecting value", pos)
    else if mode = 1 then
      -- at an opening double quote of a member key
      match cs with
      | c :: rest =>
        if c = dqChar then
          match jStr pos rest (pos + 1) with
          | .error e => .error e
          | .ok (key, cs1, p1) =>
            let (cs2, p2) := jSkipWs cs1 p1
            match cs2 with
            | ':' :: r3 =>
              let (cs3, p3) := jSkipWs r3 (p2 + 1)
              match jRun f 0 [] [] cs3 p3 with
              | .error e => .error e
              | .ok (v, cs4, p4) =>
                let (cs5, p5) := jSkipWs cs4 p4
                match cs5 with
                | ',' :: r6 =>
                  let (cs6, p6) := jSkipWs r6 (p5 + 1)
                  match cs6 with
                  | c7 :: _ =>
                    if c7 = dqChar then
                      jRun f 1 ((⟨key⟩, v) :: kacc) [] cs6 p6
                    else .error
                      ("Expecting property name enclosed in double quotes", p6)
                  | [] => .error
                      ("Expecting property name enclosed in double quotes", p6)
                | '\x7d' :: r6 =>
                  .ok (.jobj (((⟨key⟩ : String), v) :: kacc).reverse, r6, p5 + 1)
                | _ => .error ("Expecting \x27,\x27 delimiter", p5)
            | _ => .error ("Expecting \x27:\x27 delimiter", p2)
        else .error ("Expecting property name enclosed in double quotes", pos)
      | [] => .error ("Expecting property name enclosed in double quotes", pos)
    else if mode = 2 then
      match jRun f 0 [] [] cs pos with
      | .error e => .error e
      | .ok (v, cs1, p1) =>
        let (cs2, p2) := jSkipWs cs1 p1
        match cs2 with
        | ',' :: r3 =>
          let (cs3, p3) := jSkipWs r3 (p2 + 1)
          jRun f 2 [] (v :: vacc) cs3 p3
        | ']' :: r3 => .ok (.jarr (v :: vacc).reverse, r3, p2 + 1)
        | _ => .error ("Expecting \x27,\x27 delimiter", p2)
    else .error ("model: bad mode", pos)

/-- `json.loads`: skip leading whitespace, decode one value, require
only whitespace to follow (else `Extra data`).  An `.error` is the
`str()` of the raised `JSONDecodeError`. -/
def jsonLoads (s : String) : Except String JVal :=
  let (cs, p) := jSkipWs s.data 0
  match jRun (s.data.length + 1) 0 [] [] cs p with
  | .error (m, ep) => .error (jErrMsg s m ep)
  | .ok (v, cs1, p1) =>
    let (cs2, p2) := jSkipWs cs1 p1
    if cs2.isEmpty then .ok v else .error (jErrMsg s "Extra data" p2)

/-! ### Tool dispatch (`call_appropriate_tool`, src/main.py:148-172) -/

/-- Python truthiness of a decoded JSON value. -/
def jTruthy : JVal → Bool
  | .jnull => false
  | .jbool b => b
  | .jint n => n ≠ 0
  | .jfloat q => !q.isZero
  | .jstr s => s ≠ ""
  | .jarr xs => !xs.isEmpty
  | .jobj kvs => !kvs.isEmpty

/-- Python type name of a decoded value (for `AttributeError` texts). -/
def jTypeName : JVal → String
  | .jnull => "NoneType"
  | .jbool _ => "bool"
  | .jint _ => "int"
  | .jfloat _ => "float"
  | .jstr _ => "str"
  | .jarr _ => "list"
  | .jobj _ => "dict"

/-- `dict.get` on a decoded object (later duplicate keys win, as in
Python's dict construction). -/
def jGet (kvs : List (String × JVal)) (k : String) : Option JVal :=
  (kvs.reverse.find? (fun p => p.1 = k)).map Prod.snd

/-- src/main.py:148-172.  Routes a tool name to the tool, with the
`arguments.get(...)` defaults; unknown names yield the fallback string;
a raised error inside the `try` is rendered `Error executing <name>:
<detail>`.  A *truthy non-string* argument makes the tool itself raise
(e.g. `int.strip`): modelled by the `Error executing` rendering with the
CPython `AttributeError` text where it is cheap to reproduce.  Falsy
non-string arguments flow through the tools' own emptiness checks, as in
the source. -/
def call_appropriate_tool (env : Env) (tool_name : String)
    (arguments : JVal) : String :=
  let argObj : List (String × JVal) := match arguments with
    | .jobj kvs => kvs
    | _ => []
  match arguments with
  | .jobj _ =>
    if tool_name = "calculator_tool" then
      match (jGet argObj "expression").getD (.jstr "") with
      | .jstr s => calculator_tool s
      | v =>
        if jTruthy v then
          "Error executing calculator_tool: " ++ quoted (jTypeName v) ++
            " object has no attribute " ++ quoted "strip"
        else "Error: Empty expression provided"
    else if tool_name = "get_current_time" then
      match (jGet argObj "timezone").getD (.jstr "UTC") with
      | .jstr s => get_current_time env s
      | v =>
        if jTruthy v then
          "Error getting time for timezone " ++ quoted (jTypeName v) ++
            " (non-string argument; detail unmodelled)"
        else get_current_time env ""
    else if tool_name = "web_search" then
      match (jGet argObj "query").getD (.jstr "") with
      | .jstr q =>
        let pr : Int × Bool := match (jGet argObj "num_results").getD (.jint 3) with
          | .jint n => (n, true)
          | _ => (0, false)
        web_search env q pr.1 pr.2
      | v =>
        if jTruthy v then
          "Error executing web_search: " ++ quoted (jTypeName v) ++
            " object has no attribute " ++ quoted "strip"
        else "Error: Empty search query provided"
    else "Error: Unknown tool " ++ quoted tool_name
  | v =>
    -- json.loads returned a non-dict: `arguments.get` raises AttributeError
    "Error executing " ++ tool_name ++ ": " ++ quoted (jTypeName v) ++
      " object has no attribute " ++ quoted "get"

/-! ### The orchestration loop (`chat_with_llm`, src/main.py:174-298)
and the interactive round (`chat_interface`, src/main.py:300-342)

The OpenAI client is the external Model Gateway collaborator: a function
from the call index (0, 1, 2 — the three `create` call sites) and the
request messages to either a response or a raised exception's `str`.
The embedded loop also returns how many gateway calls were made, so the
chaining bound is statable. -/

structure ToolCall where
  id : String
  callName : String
  arguments : String
deriving DecidableEq, Repr

structure Response where
  content : Option String
  tool_calls : List ToolCall
deriving DecidableEq, Repr

structure Msg where
  role : String
  content : Option String
  tool_calls : List ToolCall
  tool_call_id : Option String
deriving DecidableEq, Repr

def Gateway : Type := Nat → List Msg → Except String Response

/-- Python's `a or b` on optional strings (`None` and `""` are falsy). -/
def pyOr (a b : Option String) : Option String :=
  match a with
  | some s => if s = "" then b else some s
  | none => b

/-- The assistant turn the loop appends before dispatching
(src/main.py:204-219 and 250-265). -/
def assistantMsg (r : Response) : Msg := ⟨"assistant", r.content, r.tool_calls, none⟩

/-- The tool-result turn (src/main.py:229-234 and 275-279). -/
def toolMsg (c : ToolCall) (result : String) : Msg :=
  ⟨"tool", some result, [], some c.id⟩

/-- The per-batch dispatch loop (src/main.py:221-234, 267-279):
`json.loads` each call's arguments — whose raised `JSONDecodeError`
escapes to the round boundary, aborting the batch — then dispatch and
append the tool turn. -/
def execCalls (env : Env) (msgs : List Msg) :
    List ToolCall → Except String (List Msg)
  | [] => .ok msgs
  | c :: rest =>
    match jsonLoads c.arguments with
    | .error e => .error e
    | .ok args =>
      execCalls env (msgs ++ [toolMsg c (call_appropriate_tool env c.callName args)])
        rest

/-- src/main.py:174-298, returning the final text and the number of
gateway invocations.  Any raised exception — from a gateway call or from
argument decoding — is caught by the single round-boundary handler and
rendered `Error communicating with OpenAI: <detail>`. -/
def chat_with_llm (gw : Gateway) (messages : List Msg) (env : Env) :
    Option String × Nat :=
  match gw 0 messages with
  | .error e => (some ("Error communicating with OpenAI: " ++ e), 1)
  | .ok response_message =>
    if response_message.tool_calls.isEmpty then (response_message.content, 1)
    else
      let messages := messages ++ [assistantMsg response_message]
      match execCalls env messages response_message.tool_calls with
      | .error e => (some ("Error communicating with OpenAI: " ++ e), 1)
      | .ok messages =>
        match gw 1 messages with
        | .error e => (some ("Error communicating with OpenAI: " ++ e), 2)
        | .ok final_response =>
          let final_content := final_response.content
          if final_response.tool_calls.isEmpty then (final_content, 2)
          else
            let messages := messages ++ [assistantMsg final_response]
            match execCalls env messages final_response.tool_calls with
            | .error e => (some ("Error communicating with OpenAI: " ++ e), 2)
            | .ok messages =>
              match gw 2 messages with
              | .error e => (some ("Error communicating with OpenAI: " ++ e), 3)
              | .ok chained_response =>
                (pyOr chained_response.content final_content, 3)

/-! ### Windowed memory (src/main.py:8-75) -/

def WINDOW_SIZE : Nat := 3

/-- The system prompt of src/main.py:12-26, verbatim (its content is
immaterial to every claim). -/
def SYSTEM_PROMPT : String :=
  "You are a helpful assistant with access to three tools:\n" ++
  "- calculator_tool for mathematical calculations, percentages, and functions. \n" ++
  "  For example if user asks What is 15 percent of 847, you should reply with \"15 percent of 847 is 127.05\".\n" ++
  "- get_current_time for timezone-aware time queries  \n" ++
  "  For example if user asks What is the current time in US/Eastern, you should reply with \"The current time in US/Eastern is 2023-10-01 12:00:00\".\n" ++
  "- web_search for finding information online\n" ++
  "  For example if user asks What is the capital of France, you should reply with \"The capital of France is Paris\".\n\n" ++
  "You can chain tools together when needed. For example:\n" ++
  "- Get current time and use the result in calculations\n" ++
  "- Search for information and then calculate percentages from the data\n" ++
  "- Use results from one tool as input to another tool\n\n" ++
  "Always be conversational, explain what tools you\x27re using and explain your reasoning when chaining tools. \n" ++
  "After getting tool results, provide a complete answer with the actual results."

/-- One stored exchange (`{'user': ..., 'ai': ...}`); the assistant text
is optional because `chat_with_llm` can return `None`. -/
structure Exchange where
  user : String
  ai : Option String
deriving DecidableEq, Repr

/-- The two prompt turns contributed by one retained exchange. -/
def exchangeTurns (entry : Exchange) : List Msg :=
  [⟨"user", some entry.user, [], none⟩, ⟨"assistant", entry.ai, [], none⟩]

/-- src/main.py:31-58: system turn, then the retained exchanges
(`chat_history[-WINDOW_SIZE:]` when more than `WINDOW_SIZE` are stored),
then the new user turn. -/
def build_prompt_windowed (chat_history : List Exchange) (user_input : String) :
    List Msg :=
  let recent_history :=
    if chat_history.length > WINDOW_SIZE then
      chat_history.drop (chat_history.length - WINDOW_SIZE)
    else chat_history
  ⟨"system", some SYSTEM_PROMPT, [], none⟩ ::
    ((recent_history.map exchangeTurns).flatten ++ [⟨"user", some user_input, [], none⟩])

/-- src/main.py:60-75. -/
def add_to_chat_history (chat_history : List Exchange) (user_input : String)
    (ai_response : Option String) : List Exchange :=
  chat_history ++ [⟨user_input, ai_response⟩]

/-- One iteration of the `chat_interface` loop body (src/main.py:316-339)
for a non-command input: build the windowed prompt, run the round, print
the response, and record the exchange.  `chat_with_llm` returns on every
path (its own handler catches every exception), so the inner
`except`/`messages.pop()` of src/main.py:337-339 is dead code; the
response — error string or not — is always recorded. -/
def chatRound (gw : Gateway) (env : Env) (chat_history : List Exchange)
    (user_input : String) : Option String × List Exchange :=
  let messages := build_prompt_windowed chat_history user_input
  let response := (chat_with_llm gw messages env).1
  (response, add_to_chat_history chat_history user_input response)

/-! ### Concrete fixtures for the theorems -/

/-- A trivial collaborator environment (no timezone database entries, no
search results). -/
def env0 : Env := ⟨fun _ => none, [], fun _ _ => ""⟩

/-- A collaborator that echoes the zone name it is consulted with into
the rendered strings, making the consulted name observable. -/
def envEcho : Env := ⟨fun s => some ⟨s ++ "/F", "D"⟩, [], fun _ _ => ""⟩

/-- A scripted gateway that, on every call, answers with text and one
further (well-formed) tool call. -/
def gwAlways : Gateway := fun _ _ => .ok ⟨some "text", [⟨"id1", "nosuch", "\x7b\x7d"⟩]⟩

/-- A scripted gateway whose every call raises (models a network
failure whose `str` is `boom`). -/
def gwRaise : Gateway := fun _ _ => .error "boom"

/-- A scripted gateway whose first response carries one tool call with
malformed JSON arguments followed by one with well-formed arguments. -/
def gwMalformed : Gateway := fun _ _ =>
  .ok ⟨some "t", [⟨"a", "calculator_tool", "not json"⟩,
                  ⟨"b", "calculator_tool", "\x7b\x7d"⟩]⟩

/-- Like `gwMalformed` but with a well-formed call before the malformed
one. -/
def gwMalformedLater : Gateway := fun _ _ =>
  .ok ⟨none, [⟨"g", "nosuch", "\x7b\x7d"⟩,
              ⟨"a", "calculator_tool", "not json"⟩]⟩

/-- A four-exchange history (one more than the window size). -/
def h4 : List Exchange :=
  [⟨"u1", some "a1"⟩, ⟨"u2", some "a2"⟩, ⟨"u3", some "a3"⟩, ⟨"u4", some "a4"⟩]

/-- The property C2 quantifies over: a scripted gateway that always
returns an assistant turn carrying (decodable) tool calls. -/
def alwaysToolCalls (gw : Gateway) : Prop :=
  ∀ i msgs, ∃ r, gw i msgs = .ok r ∧ r.tool_calls ≠ [] ∧
    ∀ c ∈ r.tool_calls, ∃ v, jsonLoads c.arguments = .ok v

/-! ### Supporting lemmas -/

/-- If every call's arguments decode, the dispatch batch completes. -/
theorem execCalls_ok (env : Env) (msgs : List Msg) (calls : List ToolCall)
    (h : ∀ c ∈ calls, ∃ v, jsonLoads c.arguments = .ok v) :
    ∃ msgs', execCalls env msgs calls = .ok msgs' := by
  induction calls generalizing msgs with
  | nil => exact ⟨msgs, rfl⟩
  | cons c rest ih =>
    obtain ⟨v, hv⟩ := h c (List.mem_cons_self c rest)
    obtain ⟨msgs', hm⟩ := ih
      (msgs ++ [toolMsg c (call_appropriate_tool env c.callName v)])
      (fun c' hc' => h c' (List.mem_cons_of_mem c hc'))
    exact ⟨msgs', by simp only [execCalls, hv, hm]⟩

/-- A batch whose first undecodable call follows only decodable ones
fails with that call's decode error. -/
theorem execCalls_error (env : Env) (msgs : List Msg) (pre : List ToolCall)
    (c : ToolCall) (rest : List ToolCall) (e : String)
    (hpre : ∀ c' ∈ pre, ∃ v, jsonLoads c'.arguments = .ok v)
    (hc : jsonLoads c.arguments = .error e) :
    execCalls env msgs (pre ++ c :: rest) = .error e := by
  induction pre generalizing msgs with
  | nil => simp only [List.nil_append, execCalls, hc]
  | cons p ps ih =>
    obtain ⟨v, hv⟩ := hpre p (List.mem_cons_self p ps)
    simp only [List.cons_append, execCalls, hv]
    exact ih _ (fun c' hc' => hpre c' (List.mem_cons_of_mem p hc'))

/-- `Nat.digitChar` never yields a decimal point. -/
theorem digitChar_ne_dot (n : Nat) : Nat.digitChar n ≠ '.' := by
  rcases Nat.lt_or_ge n 16 with h16 | h16
  · interval_cases n <;> decide
  · unfold Nat.digitChar
    repeat rw [if_neg (by omega)]
    decide

/-- `Nat.toDigitsCore` never introduces a decimal point. -/
theorem toDigitsCore_no_dot (b fuel n : Nat) (acc : List Char)
    (hacc : '.' ∉ acc) : '.' ∉ Nat.toDigitsCore b fuel n acc := by
  induction fuel generalizing n acc with
  | zero => simpa [Nat.toDigitsCore] using hacc
  | succ f ih =>
    have hcons : '.' ∉ Nat.digitChar (n % b) :: acc := by
      intro hmem
      rcases List.mem_cons.mp hmem with h | h
      · exact digitChar_ne_dot _ h.symm
      · exact hacc h
    show '.' ∉ (if n / b = 0 then Nat.digitChar (n % b) :: acc
      else Nat.toDigitsCore b f (n / b) (Nat.digitChar (n % b) :: acc))
    by_cases hz : n / b = 0
    · rw [if_pos hz]; exact hcons
    · rw [if_neg hz]; exact ih _ _ hcons

/-- The decimal rendering of an integer contains no decimal point. -/
theorem intRepr_no_dot (n : Int) : '.' ∉ (toString n).data := by
  show '.' ∉ (Int.repr n).data
  cases n with
  | ofNat m =>
    have hd : (Int.repr (Int.ofNat m)).data = Nat.toDigits 10 m := rfl
    have ht : Nat.toDigits 10 m = Nat.toDigitsCore 10 (m + 1) m [] := rfl
    rw [hd, ht]
    exact toDigitsCore_no_dot 10 (m + 1) m [] (by simp)
  | negSucc m =>
    have hd : (Int.repr (Int.negSucc m)).data =
        '-' :: Nat.toDigitsCore 10 (m + 2) (m + 1) [] := rfl
    rw [hd]
    intro hmem
    rcases List.mem_cons.mp hmem with h | h
    · cases h
    · exact toDigitsCore_no_dot 10 (m + 2) (m + 1) [] (by simp) h

/-- The generic content of the safety loop: the walked node list raises
nothing iff every bare identifier on it is a `safe_dict` key or has the
(dead) `math.` prefix. -/
theorem findSome_nodeObjection_none (l : List Ast) :
    l.findSome? nodeObjection = none ↔
      ∀ i ∈ l.filterMap astNameId,
        (safeKeys.contains i || "math.".data.isPrefixOf i.data) = true := by
  induction l with
  | nil => simp
  | cons a rest ih =>
    cases a with
    | name id =>
      by_cases hid : (safeKeys.contains id || "math.".data.isPrefixOf id.data) = true
      · simp only [List.findSome?, nodeObjection, hid, if_true, List.filterMap,
          astNameId]
        rw [ih]
        constructor
        · intro h i hi
          rcases List.mem_cons.mp hi with h1 | h1
          · exact h1 ▸ hid
          · exact h i h1
        · intro h i hi
          exact h i (List.mem_cons_of_mem _ hi)
      · simp only [List.findSome?, nodeObjection, hid, if_false, List.filterMap,
          astNameId, Bool.false_eq_true]
        constructor
        · intro h; cases h
        · intro h
          exact absurd (h id (List.mem_cons_self _ _)) hid
    | num n => simpa [List.findSome?, nodeObjection, astNameId] using ih
    | fnum q => simpa [List.findSome?, nodeObjection, astNameId] using ih
    | strc s => simpa [List.findSome?, nodeObjection, astNameId] using ih
    | attr v fld => simpa [List.findSome?, nodeObjection, astNameId] using ih
    | call f args => simpa [List.findSome?, nodeObjection, astNameId] using ih
    | binop op x y => simpa [List.findSome?, nodeObjection, astNameId] using ih
    | unop op x => simpa [List.findSome?, nodeObjection, astNameId] using ih

/-! ### Claim C1 -/

/-- C1, counterexample.  The claim says `evaluate("__import__('os')")`
returns an unsafe-operation classification, and that *every* expression
with an identifier outside `{math, abs, round, min, max, sum}` + the
substituted math functions is so classified.  Both parts fail: the
broken `^`-rewrite prepends `**` to any input starting with a word
character, so `__import__('os')` is reported as an *invalid expression*
(never an unsafe-operation classification — though it is still never
executed), and the bare identifier `__builtins__`, outside the claimed
whitelist, is accepted and evaluated to the empty dict. -/
theorem c1_claim_counterexample :
    calculator_tool "__import__(\x27os\x27)" =
      "Error: Invalid mathematical expression " ++
        quoted "**__import__(\x27os\x27)" ∧
    ("Error: Unsafe".data.isPrefixOf
      (calculator_tool "__import__(\x27os\x27)").data) = false ∧
    calculator_tool "(__builtins__)" = "(__builtins__) = \x7b\x7d" := by
  exact ⟨rfl, rfl, rfl⟩

/-- C1 (amended): for every input whose substituted text parses, if the
source's breadth-first check finds a bare identifier outside
`safe_dict`'s keys (`__builtins__, math, abs, round, min, max, sum`),
the calculator returns exactly the unsafe-operation classification and
never reaches evaluation; inputs mangled into syntax errors by the `^`
rewrite (such as `__import__('os')` itself) are instead reported as
invalid expressions, also without evaluating. -/
theorem c1_unsafe_rejection_amended (s : String) (a : Ast) (i : String)
    (hp : parseExpr (substAll (pyStrip s)) = some a)
    (hu : findUnsafe ((substAll (pyStrip s)).data.length + 1) a = some i) :
    calculator_tool s = "Error: Unsafe operation: " ++ i := by
  have hps : pyStrip s ≠ "" := by
    intro h
    rw [h] at hp
    simp only [show parseExpr (substAll "") = none from rfl] at hp
    exact Option.noConfusion hp
  have hs0 : s ≠ "" := fun h => hps (by subst h; rfl)
  unfold calculator_tool
  rw [if_neg (by simp [hs0, hps])]
  simp only [hp, hu]

/-- C1 witness: the parenthesised variant of the claim's own example
(which escapes the `^`-rewrite mangling) is classified as unsafe. -/
theorem c1_unsafe_rejection_witness :
    calculator_tool "(__import__(\x27os\x27))" =
      "Error: Unsafe operation: __import__" :=
  c1_unsafe_rejection_amended "(__import__(\x27os\x27))"
    (.call (.name "__import__") [.strc "os"]) "__import__" rfl rfl

/-! ### Claim C4 -/

/-- C4, counterexample.  The claim says percentage phrases take a
dedicated fast path and `evaluate("15% of 847")` returns `127.05`.  The
source has no such path: the input (mangled by the `^`-rewrite into
`**15% of 847`) is rejected as an invalid expression, and the output
does not contain `127.05`. -/
theorem c4_claim_counterexample :
    calculator_tool "15% of 847" =
      "Error: Invalid mathematical expression " ++ quoted "**15% of 847" ∧
    strContains (calculator_tool "15% of 847") "127.05" = false := by
  exact ⟨rfl, rfl⟩

/-- C4 (amended): no percentage-phrase recognition exists anywhere in
the evaluator.  `%` can only be Python's modulo: even the variant
`(15)% of 847`, which escapes the `^`-rewrite mangling, fails to parse
(`of 847` after the modulo expression is a syntax error), and the
substitution step rewrites `15% of 847` to `**15% of 847` without
treating `%` specially. -/
theorem c4_no_percentage_amended :
    calculator_tool "(15)% of 847" =
      "Error: Invalid mathematical expression " ++ quoted "(15)% of 847" ∧
    substAll "15% of 847" = "**15% of 847" ∧
    parseExpr "(15)% of 847" = none := by
  exact ⟨rfl, rfl, rfl⟩

/-! ### Claim C7 -/

/-- C7: the claim says the substitution step rewrites `^` to
exponentiation so that `evaluate("2^3")` computes `8`.  The code's own
comment (`'^': '**'  # Handle exponentiation`) states that intent, but
the unescaped caret in `re.sub(r'\b^\b', ...)` is a start-of-string
anchor: `2^3` becomes the syntax error `**2^3`, and a `^` that survives
(as in `(2)^3`) parses as Python's XOR, giving `2 xor 3 = 1`, not `8`.
The substitution itself never touches the `^` character. -/
theorem c7_caret_code_bug :
    calculator_tool "2^3" =
      "Error: Invalid mathematical expression " ++ quoted "**2^3" ∧
    calculator_tool "(2)^3" = "(2)^3 = 1" ∧
    substAll "2^3" = "**2^3" ∧
    substAll "(2)^3" = "(2)^3" := by
  exact ⟨rfl, rfl, rfl, rfl⟩

/-! ### Claim C3 -/

/-- C3, counterexample.  The claim says a gateway failure leaves the
stored conversation memory exactly as it was.  In the source,
`chat_with_llm` *returns* the error string (it never raises), so
`chat_interface` records the exchange as usual: starting from empty
memory, the round a gateway exception aborts still appends an exchange
whose assistant text is the error rendering — the memory is modified. -/
theorem c3_claim_counterexample :
    chatRound gwRaise env0 [] "hi" =
      (some "Error communicating with OpenAI: boom",
        [⟨"hi", some "Error communicating with OpenAI: boom"⟩]) ∧
    ([⟨"hi", some "Error communicating with OpenAI: boom"⟩] : List Exchange)
      ≠ [] := by
  exact ⟨rfl, by decide⟩

/-- C3 (amended): an exception raised while communicating with the
gateway is rendered as the user-visible string `Error communicating
with OpenAI: <detail>`, which becomes the round's response — and that
error response is then *recorded into conversation memory* as a normal
exchange (the memory is extended, not left unmodified). -/
theorem c3_failure_recorded_amended (gw : Gateway) (env : Env)
    (history : List Exchange) (input : String) (e : String)
    (hgw : gw 0 (build_prompt_windowed history input) = .error e) :
    chatRound gw env history input =
      (some ("Error communicating with OpenAI: " ++ e),
        history ++ [⟨input, some ("Error communicating with OpenAI: " ++ e)⟩]) := by
  unfold chatRound chat_with_llm add_to_chat_history
  simp only [hgw]

/-- C3 witness: the amended statement at a concrete failing gateway and
nonempty memory. -/
theorem c3_failure_recorded_witness :
    chatRound gwRaise env0 [⟨"a", some "b"⟩] "hi" =
      (some "Error communicating with OpenAI: boom",
        [⟨"a", some "b"⟩, ⟨"hi", some "Error communicating with OpenAI: boom"⟩]) :=
  c3_failure_recorded_amended gwRaise env0 [⟨"a", some "b"⟩] "hi" "boom" rfl

/-! ### Claim C5 -/

/-- C5, counterexample.  The claim says malformed JSON arguments yield
an error string as *that call's tool result* and the loop *continues*
with the remaining calls and rounds.  In the source `json.loads` runs
outside the per-call wrapper, so the decode error escapes to the round
boundary: with a first call carrying `not json` and a second well-formed
call, the whole round returns the transport-style error and the gateway
is invoked exactly once — no tool result is produced and nothing
continues. -/
theorem c5_claim_counterexample :
    chat_with_llm gwMalformed [] env0 =
      (some "Error communicating with OpenAI: Expecting value: line 1 column 1 (char 0)",
        1) := by
  exact rfl

/-- C5 (amended): a tool call with undecodable arguments, preceded by
only decodable ones, aborts the whole round at the decode: the loop
returns `Error communicating with OpenAI: <decode error>` after a single
gateway invocation; the failing call gets no tool result and the
remaining calls and rounds are skipped. -/
theorem c5_malformed_aborts_amended (gw : Gateway) (env : Env)
    (messages : List Msg) (r : Response) (pre : List ToolCall)
    (c : ToolCall) (rest : List ToolCall) (e : String)
    (hgw : gw 0 messages = .ok r)
    (hcalls : r.tool_calls = pre ++ c :: rest)
    (hpre : ∀ c' ∈ pre, ∃ v, jsonLoads c'.arguments = .ok v)
    (hc : jsonLoads c.arguments = .error e) :
    chat_with_llm gw messages env =
      (some ("Error communicating with OpenAI: " ++ e), 1) := by
  unfold chat_with_llm
  have hne : r.tool_calls.isEmpty = false := by
    rw [hcalls]
    cases pre <;> rfl
  simp only [hgw, hne, Bool.false_eq_true, if_false]
  rw [hcalls, execCalls_error env _ pre c rest e hpre hc]

/-- C5 witness: the amended statement at a script whose malformed call
follows a well-formed one. -/
theorem c5_malformed_aborts_witness :
    chat_with_llm gwMalformedLater [] env0 =
      (some ("Error communicating with OpenAI: " ++
        "Expecting value: line 1 column 1 (char 0)"), 1) :=
  c5_malformed_aborts_amended gwMalformedLater env0 []
    ⟨none, [⟨"g", "nosuch", "\x7b\x7d"⟩, ⟨"a", "calculator_tool", "not json"⟩]⟩
    [⟨"g", "nosuch", "\x7b\x7d"⟩] ⟨"a", "calculator_tool", "not json"⟩ [] _
    rfl rfl
    (by
      intro c' hc'
      rcases List.mem_singleton.mp hc' with rfl
      exact ⟨.jobj [], rfl⟩)
    rfl

/-! ### Claim C6 -/

/-- C6, counterexample.  The claim says the alias table contains
`BST→Europe/London`, `PDT→US/Pacific`, `EDT→US/Eastern` and is checked
case-insensitively, so `est` and `BST` resolve through it.  With a
collaborator that echoes the zone name it is asked for, both `est` and
`BST` are seen to reach the timezone database verbatim: the table has no
`BST` entry and the lookup is a case-sensitive `dict.get`. -/
theorem c6_claim_counterexample :
    get_current_time envEcho "est" = "Current time in est: est/F (D)" ∧
    get_current_time envEcho "BST" = "Current time in BST: BST/F (D)" ∧
    get_current_time envEcho "PDT" = "Current time in PDT: PDT/F (D)" ∧
    get_current_time envEcho "EDT" = "Current time in EDT: EDT/F (D)" := by
  exact ⟨rfl, rfl, rfl, rfl⟩

/-- C6 (amended): the fixed alias table has exactly the eight entries
`EST, PST, CST, MST, JST, GMT, CET, IST` and is consulted
*case-sensitively* before the timezone-database collaborator; lower-case
tokens and `BST/PDT/EDT` pass to the collaborator unchanged, and a
successful collaborator lookup renders the resolved name. -/
theorem c6_alias_table_amended :
    (∀ p ∈ timezone_aliases, consultedZone p.1 = p.2) ∧
    consultedZone "est" = "est" ∧
    consultedZone "BST" = "BST" ∧
    consultedZone "PDT" = "PDT" ∧
    consultedZone "EDT" = "EDT" ∧
    (∀ (env : Env) (t : String) (v : TzView),
      env.tzView (consultedZone t) = some v →
      get_current_time env t =
        "Current time in " ++ consultedZone t ++ ": " ++ v.formatted ++
          " (" ++ v.dayName ++ ")") := by
  refine ⟨by decide, rfl, rfl, rfl, rfl, ?_⟩
  intro env t v hv
  unfold get_current_time
  simp only [hv]

/-- C6 witness: the amended rendering statement at the echo collaborator
and the alias `EST` (showing the table entry is applied before the
collaborator is consulted). -/
theorem c6_alias_table_witness :
    get_current_time envEcho "EST" =
      "Current time in US/Eastern: US/Eastern/F (D)" :=
  c6_alias_table_amended.2.2.2.2.2 envEcho "EST" ⟨"US/Eastern/F", "D"⟩ rfl

/-! ### Claim C9 -/

/-- C9, counterexample.  The claim says any result of magnitude below
`1e-10` is snapped to exactly `0` before rendering.  The formatter has
no such branch: `(1)/100000000000` evaluates to `1e-11` (below `1e-10`,
nonzero) and renders as `1e-11`, not `0`. -/
theorem c9_claim_counterexample :
    Frac.lt ⟨1, 100000000000⟩ (powTen (-10)) = true ∧
    Frac.isZero ⟨1, 100000000000⟩ = false ∧
    calculator_tool "(1)/100000000000" = "(1)/100000000000 = 1e-11" ∧
    ("(1)/100000000000 = 1e-11" : String) ≠ "(1)/100000000000 = 0" := by
  exact ⟨rfl, rfl, rfl, by decide⟩

/-- C9 (amended): float results that are integral render through
`int(result)` — a decimal-point-free string — and non-integral floats
render through the 10-significant-digit `{:.10g}` path; no magnitude is
snapped to zero (sub-`1e-10` values take the same `{:.10g}` path, as the
accompanying counterexample shows concretely). -/
theorem c9_formatting_amended (e : String) (q : Frac) :
    (q.isInt = true →
      formatResult e (.vfloat q) = e ++ " = " ++ toString q.floor ∧
      '.' ∉ (toString q.floor).data) ∧
    (q.isInt = false →
      formatResult e (.vfloat q) = e ++ " = " ++ format10g q) := by
  have hstep : formatResult e (.vfloat q) =
      if q.isInt = true then e ++ " = " ++ toString q.floor
      else e ++ " = " ++ format10g q := rfl
  constructor
  · intro hq
    refine ⟨?_, intRepr_no_dot q.floor⟩
    rw [hstep, if_pos hq]
  · intro hq
    rw [hstep, if_neg (by simp [hq])]

/-- C9 witness: both branches of the amended statement at concrete
values (`4/2` is an integral float and renders as `2`; `1/2` renders via
the significant-digit path as `0.5`). -/
theorem c9_formatting_witness :
    formatResult "(4)/2" (.vfloat ⟨4, 2⟩) = "(4)/2 = 2" ∧
    formatResult "(1)/2" (.vfloat ⟨1, 2⟩) = "(1)/2 = 0.5" := by
  constructor
  · exact ((c9_formatting_amended "(4)/2" ⟨4, 2⟩).1 rfl).1.trans rfl
  · exact ((c9_formatting_amended "(1)/2" ⟨1, 2⟩).2 rfl).trans rfl

/-! ### Claim C10 -/

/-- C10, counterexample.  The claim says any attribute of the math
module is reachable, e.g. that `math.gamma(5)` evaluates.  It does not:
the `^`-rewrite prepends `**` to the input (it starts with a word
character), which is a syntax error — the expression never reaches the
safety check or evaluation. -/
theorem c10_claim_counterexample :
    calculator_tool "math.gamma(5)" =
      "Error: Invalid mathematical expression " ++ quoted "**math.gamma(5)" := by
  exact rfl

/-- C10 (amended): the safety check examines only bare identifiers —
the walk raises nothing iff every bare `Name` on it is a `safe_dict`
key (`__builtins__, math, abs, round, min, max, sum`) or carries the
dead `math.` prefix; the `Call` branch rejects nothing.  Qualified math
attributes are therefore reachable whenever the input survives the
`^`-rewrite: `(math.factorial(5))` passes the check and evaluates to
`120`, well beyond the seven spec-listed functions. -/
theorem c10_name_check_amended :
    (∀ (fuel : Nat) (a : Ast),
      findUnsafe fuel a = none ↔
        ∀ i ∈ bareNames fuel a,
          (safeKeys.contains i || "math.".data.isPrefixOf i.data) = true) ∧
    calculator_tool "(math.factorial(5))" = "(math.factorial(5)) = 120" := by
  refine ⟨fun fuel a => ?_, rfl⟩
  unfold findUnsafe bareNames
  exact findSome_nodeObjection_none (walkBFS fuel [a])

/-- C10 witness: the amended equivalence applied at the parsed AST of
`(math.factorial(5))` — its only bare identifier is `math`, so the
check accepts. -/
theorem c10_name_check_witness :
    findUnsafe 9 (.call (.attr (.name "math") "factorial") [.num 5]) = none :=
  (c10_name_check_amended.1 9
    (.call (.attr (.name "math") "factorial") [.num 5])).mpr (by decide)

/-! ### Claim C2 -/

/-- C2: on any input the loop invokes the gateway at most three times
(the first call plus the bound of two additional rounds); and for a
scripted gateway that always answers with (decodable) tool calls,
exactly three invocations happen and the loop returns the last known
textual content — Python's `content or final_content` over the third and
second responses — rather than looping further. -/
theorem c2_chain_bound (gw : Gateway) (env : Env) (messages : List Msg) :
    (chat_with_llm gw messages env).2 ≤ 3 ∧
    (alwaysToolCalls gw →
      ∃ m1 m2 r1 r2, gw 1 m1 = .ok r1 ∧ gw 2 m2 = .ok r2 ∧
        chat_with_llm gw messages env = (pyOr r2.content r1.content, 3)) := by
  constructor
  · unfold chat_with_llm
    cases hgw0 : gw 0 messages with
    | error e => simp
    | ok r0 =>
      by_cases hb0 : r0.tool_calls = []
      · simp [hb0]
      · simp only [List.isEmpty_eq_true, hb0, if_false]
        cases hex0 : execCalls env (messages ++ [assistantMsg r0]) r0.tool_calls with
        | error e => simp
        | ok msgs1 =>
          cases hgw1 : gw 1 msgs1 with
          | error e => simp [hgw1]
          | ok r1 =>
            by_cases hb1 : r1.tool_calls = []
            · simp [hgw1, hb1]
            · simp only [hgw1, List.isEmpty_eq_true, hb1, if_false]
              cases hex1 : execCalls env (msgs1 ++ [assistantMsg r1]) r1.tool_calls with
              | error e => simp [hex1]
              | ok msgs2 =>
                cases hgw2 : gw 2 msgs2 <;> simp [hex1, hgw2]
  · intro hA
    obtain ⟨r0, h0, hne0, hdec0⟩ := hA 0 messages
    obtain ⟨msgs1, hm1⟩ :=
      execCalls_ok env (messages ++ [assistantMsg r0]) r0.tool_calls hdec0
    obtain ⟨r1, h1, hne1, hdec1⟩ := hA 1 msgs1
    obtain ⟨msgs2, hm2⟩ :=
      execCalls_ok env (msgs1 ++ [assistantMsg r1]) r1.tool_calls hdec1
    obtain ⟨r2, h2, hne2, hdec2⟩ := hA 2 msgs2
    have hie0 : r0.tool_calls.isEmpty = false := by
      cases h : r0.tool_calls with
      | nil => exact absurd h hne0
      | cons x xs => rfl
    have hie1 : r1.tool_calls.isEmpty = false := by
      cases h : r1.tool_calls with
      | nil => exact absurd h hne1
      | cons x xs => rfl
    refine ⟨msgs1, msgs2, r1, r2, h1, h2, ?_⟩
    unfold chat_with_llm
    simp only [h0, hie0, Bool.false_eq_true, if_false, hm1, h1, hie1, hm2, h2]

/-- C2 witness: the chain-bound statement at a concrete always-chaining
script, discharging `alwaysToolCalls`. -/
theorem c2_chain_bound_witness :
    alwaysToolCalls gwAlways ∧ chat_with_llm gwAlways [] env0 = (some "text", 3) := by
  have hA : alwaysToolCalls gwAlways := by
    intro i msgs
    refine ⟨⟨some "text", [⟨"id1", "nosuch", "\x7b\x7d"⟩]⟩, rfl, by decide, ?_⟩
    intro c hc
    rcases List.mem_singleton.mp hc with rfl
    exact ⟨.jobj [], rfl⟩
  obtain ⟨m1, m2, r1, r2, h1, h2, h3⟩ := (c2_chain_bound gwAlways env0 []).2 hA
  have e1 : r1 = ⟨some "text", [⟨"id1", "nosuch", "\x7b\x7d"⟩]⟩ :=
    (Except.ok.inj h1).symm
  have e2 : r2 = ⟨some "text", [⟨"id1", "nosuch", "\x7b\x7d"⟩]⟩ :=
    (Except.ok.inj h2).symm
  subst e1; subst e2
  exact ⟨hA, h3⟩

/-! ### Claim C8 -/

/-- C8: with `WINDOW_SIZE + 1` or more stored exchanges, the prompt is
exactly the system turn, then the user/assistant turns of the most
recent `WINDOW_SIZE` exchanges in chronological order, then the new user
turn; and exactly `WINDOW_SIZE` exchanges are retained (so everything
older is omitted from the construction). -/
theorem c8_windowed_prompt (history : List Exchange) (input : String)
    (hlen : history.length ≥ WINDOW_SIZE + 1) :
    build_prompt_windowed history input =
      ⟨"system", some SYSTEM_PROMPT, [], none⟩ ::
        (((history.drop (history.length - WINDOW_SIZE)).map exchangeTurns).flatten
          ++ [⟨"user", some input, [], none⟩]) ∧
    (history.drop (history.length - WINDOW_SIZE)).length = WINDOW_SIZE := by
  have hgt : history.length > WINDOW_SIZE := by
    unfold WINDOW_SIZE at *
    omega
  constructor
  · unfold build_prompt_windowed
    rw [if_pos hgt]
  · rw [List.length_drop]
    unfold WINDOW_SIZE at *
    omega

/-- C8 witness: the windowed prompt at a four-exchange history — the
oldest exchange (`u1`/`a1`) is absent, the remaining three appear in
order, the system turn is first and the new user turn last. -/
theorem c8_windowed_prompt_witness :
    build_prompt_windowed h4 "new" =
      [⟨"system", some SYSTEM_PROMPT, [], none⟩,
       ⟨"user", some "u2", [], none⟩, ⟨"assistant", some "a2", [], none⟩,
       ⟨"user", some "u3", [], none⟩, ⟨"assistant", some "a3", [], none⟩,
       ⟨"user", some "u4", [], none⟩, ⟨"assistant", some "a4", [], none⟩,
       ⟨"user", some "new", [], none⟩] :=
  ((c8_windowed_prompt h4 "new" (by decide)).1).trans rfl

end ToolBot
